import Mathlib

/-!
# Verification of the AccAuto bank-statement extraction core

A shallow embedding, in Lean 4, of the extraction-and-normalization core of
the AccAuto repository (`extract_bank_statement.py`, `openai_extractor.py`,
`paddle_ocr_extractor.py`, `api_upload.py`), together with theorems settling
the specification's claims about it.

Python strings are modelled as Lean `String` or `List Char`; Python floats as
exact rationals (`Rat`); Python `None`/NaN cells as `Option`; functions that
can raise are given `Except String` result types, with the caught-exception
paths made explicit.  Behavior of external library collaborators (the regex
engine, `pandas.to_datetime`, Python `float(...)`) is modelled from their
documented semantics, restricted to the fragment the source exercises.
-/

namespace AccAuto

/-- The five canonical transaction fields, the keys of `_COLUMN_MAP` in
`extract_bank_statement.py` (dict insertion order: date, description, debit,
credit, balance). -/
inductive Field
  | date
  | description
  | debit
  | credit
  | balance
deriving DecidableEq

/-- Word characters for the regex `\b` boundary: Python `\w` restricted to
ASCII, which is all the source's patterns and headers use. -/
def isWordChar (c : Char) : Bool := c.isAlphanum || c = '_'

/-- A `\b` boundary holds before the match when there is no preceding
character or the preceding character is not a word character (every pattern in
`_COLUMN_MAP` begins with a word character). -/
def prevBoundaryOk : Option Char → Bool
  | none => true
  | some c => !isWordChar c

/-- A `\b` boundary holds after the match when the match ends the string or
the next character is not a word character (every pattern in `_COLUMN_MAP`
ends with a word character). -/
def nextBoundaryOk : List Char → Bool
  | [] => true
  | c :: _ => !isWordChar c

/-- Occurrence search for `re.search(rf'\b{pat}\b', s)` where `pat` is a
literal word (possibly with inner spaces): some suffix of `s` starts with
`pat`, with word boundaries on both sides.  `prev` is the character just
before the current suffix. -/
def wbSearchAux (pat : List Char) : Option Char → List Char → Bool
  | prev, [] => pat.isEmpty && prevBoundaryOk prev
  | prev, c :: cs =>
    (pat.isPrefixOf (c :: cs) && prevBoundaryOk prev
        && nextBoundaryOk ((c :: cs).drop pat.length))
      || wbSearchAux pat (some c) cs

/-- Whether `re.search(rf'\b{pat}\b', s)` finds a match. -/
def wbSearch (pat s : List Char) : Bool :=
  wbSearchAux pat none s

/-- Python whitespace stripped by `str.strip()`. -/
def isPySpace (c : Char) : Bool :=
  c = ' ' || c = '\t' || c = '\n' || c = '\r' || c = '\x0b' || c = '\x0c'

/-- `str.strip()`: drop leading whitespace. -/
def lstripChars (l : List Char) : List Char := l.dropWhile isPySpace

/-- `str.strip()`: drop trailing whitespace. -/
def rstripChars (l : List Char) : List Char :=
  (l.reverse.dropWhile isPySpace).reverse

/-- `str.strip()`. -/
def stripChars (l : List Char) : List Char := rstripChars (lstripChars l)

/-- The `_COLUMN_MAP` table of `extract_bank_statement.py`, in dict insertion
order, each field with its ordered list of regex word patterns. -/
def _COLUMN_MAP : List (Field × List String) :=
  [ (Field.date, ["date", "txn date", "transaction date"]),
    (Field.description,
      ["particulars", "description", "details", "transaction details",
        "narration", "desc"]),
    (Field.debit, ["debit", "withdrawal", "withdrawals", "withdrawn", "dr"]),
    (Field.credit, ["credit", "deposit", "deposits", "cr"]),
    (Field.balance, ["balance", "closing balance", "available balance"]) ]

/-- `_fuzzy_match_column`: the empty string is falsy and matches nothing;
otherwise the header is stripped and lower-cased and the first field (in
`_COLUMN_MAP` order) one of whose patterns matches with word boundaries wins. -/
def _fuzzy_match_column (col_name : String) : Option Field :=
  if col_name = "" then none
  else
    let col_lower := (stripChars col_name.toList).map Char.toLower
    _COLUMN_MAP.findSome? fun p =>
      if p.2.any fun pat => wbSearch pat.toList col_lower then some p.1
      else none

/-- Loop body of `_get_column_rename_map`: walk the headers left to right,
keeping the pair `(header, std_key)` only when the key was not already
claimed by an earlier header. -/
def _get_column_rename_map_go : List String → List Field → List (String × Field)
  | [], _ => []
  | h :: hs, used =>
    match _fuzzy_match_column h with
    | some k =>
      if k ∈ used then _get_column_rename_map_go hs used
      else (h, k) :: _get_column_rename_map_go hs (k :: used)
    | none => _get_column_rename_map_go hs used

/-- `_get_column_rename_map`: the rename dict, as an association list in
insertion order. -/
def _get_column_rename_map (headers : List String) : List (String × Field) :=
  _get_column_rename_map_go headers []

/-- A calendar date, the value of a successfully parsed `pandas.Timestamp`. -/
structure YMD where
  y : Nat
  m : Nat
  d : Nat
deriving DecidableEq

/-- Leap-year test, as in the proleptic Gregorian calendar used by pandas. -/
def isLeapYear (y : Nat) : Bool :=
  (y % 4 = 0 && y % 100 ≠ 0) || y % 400 = 0

/-- Days in a month. -/
def daysInMonth (y m : Nat) : Nat :=
  if m = 2 then (if isLeapYear y then 29 else 28)
  else if m = 4 || m = 6 || m = 9 || m = 11 then 30
  else 31

/-- Whether year, month and day form a real calendar date (pandas coerces
impossible dates such as 2024-13-05 to NaT). -/
def validYMD (x : YMD) : Bool :=
  1 ≤ x.m && x.m ≤ 12 && 1 ≤ x.d && x.d ≤ daysInMonth x.y x.m

/-- Numeric value of a digit string. -/
def digitsToNat (l : List Char) : Nat :=
  l.foldl (fun acc c => 10 * acc + (c.toNat - '0'.toNat)) 0

/-- One ISO segment: all digits, length within the given bounds. -/
def digitSeg (lo hi : Nat) (l : List Char) : Bool :=
  l.all Char.isDigit && lo ≤ l.length && l.length ≤ hi

/-- ISO `YYYY-MM-DD` (month and day possibly unpadded) parse attempt. -/
def parseISO (l : List Char) : Option YMD :=
  match l.splitOn '-' with
  | [ys, ms, ds] =>
    if digitSeg 4 4 ys && digitSeg 1 2 ms && digitSeg 1 2 ds then
      some ⟨digitsToNat ys, digitsToNat ms, digitsToNat ds⟩
    else none
  | _ => none

/-- English month names and three-letter abbreviations (lower case), as
accepted by the dateutil parser pandas falls back to. -/
def monthFromName (l : List Char) : Option Nat :=
  let names : List (String × String × Nat) :=
    [ ("jan", "january", 1), ("feb", "february", 2), ("mar", "march", 3),
      ("apr", "april", 4), ("may", "may", 5), ("jun", "june", 6),
      ("jul", "july", 7), ("aug", "august", 8), ("sep", "september", 9),
      ("oct", "october", 10), ("nov", "november", 11), ("dec", "december", 12) ]
  names.findSome? fun n =>
    if l = n.1.toList || l = n.2.1.toList then some n.2.2 else none

/-- A day-number next to a month name, in either order, with no year. -/
def parseDayMonthNoYear (l : List Char) : Option (Nat × Nat) :=
  match (l.splitOn ' ').filter (fun t => !t.isEmpty) with
  | [t1, t2] =>
    if digitSeg 1 2 t1 then
      (monthFromName t2).map fun m => (digitsToNat t1, m)
    else if digitSeg 1 2 t2 then
      (monthFromName t1).map fun m => (digitsToNat t2, m)
    else none
  | _ => none

/-- Models the fragment of `pandas.to_datetime(str, errors='coerce')` the
source exercises, from pandas' documented parsing semantics:
ISO `YYYY-MM-DD` tokens parse to that calendar date when it exists; a
day/month-name token with no year parses (via dateutil) with the missing
year taken from pandas' default `datetime(1, 1, 1)`, whose year 1 lies
outside the representable `datetime64[ns]` range, so with `errors='coerce'`
the value is coerced to `NaT`; anything else unrecognizable is coerced to
`NaT`.  `none` is `NaT`. -/
def pd_to_datetime (s : String) : Option YMD :=
  let l := (stripChars s.toList).map Char.toLower
  match parseISO l with
  | some x => if validYMD x then some x else none
  | none =>
    match parseDayMonthNoYear l with
    | some _ => none
    | none => none

/-- Left-pad a numeral with zeros. -/
def padNum (width n : Nat) : String :=
  let s := toString n
  String.mk (List.replicate (width - s.length) '0') ++ s

/-- `Timestamp.strftime('%Y-%m-%d')`; on `NaT` the call raises
`ValueError: NaTType does not support strftime`, modelled as the error case. -/
def strftime_Ymd : Option YMD → Except String String
  | none => Except.error "NaTType does not support strftime"
  | some x => Except.ok (padNum 4 x.y ++ "-" ++ padNum 2 x.m ++ "-" ++ padNum 2 x.d)

/-- `_normalize_date`: `None`/NaN input short-circuits to `None`; otherwise
the (coerced) parse result is formatted, and the `ValueError` that
`strftime` raises on `NaT` is caught by the `except (ValueError, TypeError)`
clause, which returns `None`. -/
def _normalize_date (raw : Option String) : Option String :=
  match raw with
  | none => none
  | some s =>
    match strftime_Ymd (pd_to_datetime s) with
    | Except.ok out => some out
    | Except.error _ => none

/-- Characters surviving `re.sub(r'[^\d.-]', '', s)`. -/
def keepAmountChar (c : Char) : Bool :=
  c.isDigit || c = '.' || c = '-'

/-- The cleanup in `_normalize_amount`:
`str(val).replace(',', '').strip()` followed by `re.sub(r'[^\d.-]', '', .)`. -/
def cleanAmount (l : List Char) : List Char :=
  (stripChars (l.filter fun c => !(c == ','))).filter keepAmountChar

/-- Python `float(...)` on a string over the alphabet of digits, `.` and `-`
(all `re.sub` can leave): after the optional sign, digits with at most one
decimal point and at least one digit; anything else raises `ValueError`,
modelled as `none`.  The value is returned as numerator and denominator. -/
def parsePyFloatUnsigned (l : List Char) : Option (Nat × Nat) :=
  let intPart := l.takeWhile Char.isDigit
  match l.drop intPart.length with
  | [] => if intPart.isEmpty then none else some (digitsToNat intPart, 1)
  | '.' :: frac =>
    if frac.all Char.isDigit && (!intPart.isEmpty || !frac.isEmpty) then
      some (digitsToNat intPart * 10 ^ frac.length + digitsToNat frac, 10 ^ frac.length)
    else none
  | _ => none

/-- Python `float(...)` with the optional leading minus sign; floats are
modelled as exact rationals. -/
def parsePyFloat : List Char → Option Rat
  | '-' :: rest => (parsePyFloatUnsigned rest).map fun p => mkRat (-(p.1 : Int)) p.2
  | l => (parsePyFloatUnsigned l).map fun p => mkRat p.1 p.2

/-- `_normalize_amount`: `None`/NaN gives 0.0; otherwise the value is
cleaned, an empty cleaned string falls through to the trailing `return 0.0`,
and a `ValueError` from `float(...)` is caught and gives 0.0.  Python floats
are modelled as exact rationals. -/
def _normalize_amount (val : Option String) : Rat :=
  match val with
  | none => 0
  | some v =>
    let s_val := cleanAmount v.toList
    if !s_val.isEmpty then
      match parsePyFloat s_val with
      | some q => q
      | none => 0
    else 0

/-- A canonical output transaction, as built by
`_process_dataframe_to_transactions`. -/
structure Tx where
  Date : String
  Description : String
  Debit : Rat
  Credit : Rat
  Balance : Rat
deriving DecidableEq

/-- One DataFrame row restricted to the five canonical column labels:
`none` is a missing value (the column is absent from the frame, or the cell
is NaN/None), which is what `row.get(label)` paired with `pd.notnull`
distinguishes. -/
structure PRow where
  date : Option String
  description : Option String
  debit : Option String
  credit : Option String
  balance : Option String
deriving DecidableEq

/-- Which of the optional canonical columns the DataFrame actually has, used
by the `Ensure optional columns exist` loop. -/
structure DfCols where
  hasDescription : Bool
  hasDebit : Bool
  hasCredit : Bool
  hasBalance : Bool
deriving DecidableEq

/-- The `for col in ['debit', 'credit', 'balance', 'description']` loop:
an absent column is created filled with `0.0` (stringified `"0.0"`, since
`_normalize_amount` stringifies its input) or `''` for description. -/
def ensure_columns (cols : DfCols) (r : PRow) : PRow :=
  { r with
    description := if cols.hasDescription then r.description else some ""
    debit := if cols.hasDebit then r.debit else some "0.0"
    credit := if cols.hasCredit then r.credit else some "0.0"
    balance := if cols.hasBalance then r.balance else some "0.0" }

/-- The loop body of `_process_dataframe_to_transactions`: normalize the
date, drop the row when it is `None`, otherwise assemble the transaction
dict. -/
def row_to_tx (r : PRow) : Option Tx :=
  match _normalize_date r.date with
  | none => none
  | some dv =>
    some
      { Date := dv
        Description := r.description.getD ""
        Debit := _normalize_amount r.debit
        Credit := _normalize_amount r.credit
        Balance := _normalize_amount r.balance }

/-- The row loop of `_process_dataframe_to_transactions`, accumulating in
source order and skipping rows whose normalized date is falsy. -/
def process_rows : List PRow → List Tx
  | [] => []
  | r :: rs =>
    match row_to_tx r with
    | none => process_rows rs
    | some t => t :: process_rows rs

/-- `_process_dataframe_to_transactions`: ensure the optional columns exist,
then convert the rows in order. -/
def _process_dataframe_to_transactions (cols : DfCols) (rows : List PRow) : List Tx :=
  process_rows (rows.map (ensure_columns cols))

/-- The required-key list of `extract_bank_statement_columns`. -/
def required_columns : List Field :=
  [Field.date, Field.description, Field.debit, Field.credit, Field.balance]

/-- Printed name of a standard key, as it appears in the error message. -/
def fieldName : Field → String
  | Field.date => "date"
  | Field.description => "description"
  | Field.debit => "debit"
  | Field.credit => "credit"
  | Field.balance => "balance"

/-- The `missing` list of `extract_bank_statement_columns`: required keys not
among the rename map's values. -/
def missing_columns (headers : List String) : List Field :=
  required_columns.filter fun k =>
    !((_get_column_rename_map headers).map Prod.snd).contains k

/-- The column-validation step of `extract_bank_statement_columns`
(spreadsheet path): `raise ValueError(f"Missing required columns: ...")`
when `missing` is non-empty, modelled as the error case; `Except.ok` means
the function proceeds to rename and convert the frame. -/
def extract_bank_statement_columns_check (headers : List String) : Except String Unit :=
  match missing_columns headers with
  | [] => Except.ok ()
  | ms => Except.error
      ("Missing required columns: " ++ String.intercalate ", " (ms.map fieldName))

/-- The acceptance predicate in the words of the specification: the
fuzzy-matched headers must cover Date, Description, and at least one of
Debit or Credit. -/
def spec_required_ok (headers : List String) : Bool :=
  let vals := (_get_column_rename_map headers).map Prod.snd
  vals.contains Field.date && vals.contains Field.description
    && (vals.contains Field.debit || vals.contains Field.credit)

/-- The header-row test shared by `_extract_with_unstructured` and
`_extract_with_pdfplumber`: a good header row has `'date'` and at least one
of `'debit'`/`'credit'` among the rename map's values. -/
def headerQualifies (row : List String) : Bool :=
  let vals := (_get_column_rename_map row).map Prod.snd
  vals.contains Field.date && (vals.contains Field.debit || vals.contains Field.credit)

/-- The header-scan loop of both PDF strategies, carrying the running row
index: the first qualifying row wins. -/
def find_header_row_go : Nat → List (List String) → Option (Nat × List (String × Field))
  | _, [] => none
  | i, r :: rs =>
    if headerQualifies r then some (i, _get_column_rename_map r)
    else find_header_row_go (i + 1) rs

/-- The dynamic header locator: scan the first 5 rows (`table_data[:5]` in
`_extract_with_pdfplumber`, `df.head()` in `_extract_with_unstructured`) for
the earliest qualifying row; `none` is the `header_row_index == -1` sentinel
that makes the strategy skip the table. -/
def find_header_row (table : List (List String)) : Option (Nat × List (String × Field)) :=
  find_header_row_go 0 (table.take 5)

/-- Index of the first DataFrame column whose post-rename label is the given
canonical field: the column's original header renames to `f` exactly when
the pair is in the rename map. -/
def colIndexFor (hdr : List String) (rmap : List (String × Field)) (f : Field) : Option Nat :=
  (List.range hdr.length).find? fun j => decide (rmap.lookup (hdr.getD j "") = some f)

/-- Cell lookup through an optional column index; `none` is a missing value
(absent column, or a row too short for the column, which pandas fills with
NaN). -/
def cellAt (row : List String) : Option Nat → Option String
  | none => none
  | some j => row.get? j

/-- One data row of the pdfplumber DataFrame restricted to the canonical
labels, as `row.get(label)` sees it after the rename. -/
def mkPRow (hdr : List String) (rmap : List (String × Field)) (row : List String) : PRow :=
  { date := cellAt row (colIndexFor hdr rmap Field.date)
    description := cellAt row (colIndexFor hdr rmap Field.description)
    debit := cellAt row (colIndexFor hdr rmap Field.debit)
    credit := cellAt row (colIndexFor hdr rmap Field.credit)
    balance := cellAt row (colIndexFor hdr rmap Field.balance) }

/-- Which canonical columns the renamed DataFrame has. -/
def dfColsOf (hdr : List String) (rmap : List (String × Field)) : DfCols :=
  { hasDescription := (colIndexFor hdr rmap Field.description).isSome
    hasDebit := (colIndexFor hdr rmap Field.debit).isSome
    hasCredit := (colIndexFor hdr rmap Field.credit).isSome
    hasBalance := (colIndexFor hdr rmap Field.balance).isSome }

/-- Processing of one extracted table inside `_extract_with_pdfplumber`:
tables with fewer than two rows are skipped, a table with no qualifying
header row in the scan window is skipped, and otherwise the rows below the
header are converted. -/
def pdfplumber_table_transactions (table : List (List String)) : List Tx :=
  if table.length < 2 then []
  else
    match find_header_row table with
    | none => []
    | some (i, rmap) =>
      let hdr := table.getD i []
      _process_dataframe_to_transactions (dfColsOf hdr rmap)
        ((table.drop (i + 1)).map (mkPRow hdr rmap))

/-- The named PDF extraction strategies, for invocation traces. -/
inductive Strat
  | unstructured
  | pdfplumber
  | ocrLLM
deriving DecidableEq

/-- `extract_transactions_from_pdf`, with each structured strategy's result
a parameter and the invocation order recorded: strategy 1 (`unstructured`)
runs first and returns immediately when non-empty; otherwise strategy 2
(`pdfplumber`) runs under the same rule; otherwise the function returns the
empty list.  The missing-Tesseract `RuntimeError` raised by
`_check_tesseract_is_installed` before any strategy is the error case. -/
def extract_transactions_from_pdf (tesseractInstalled : Bool)
    (resUnstructured resPdfplumber : List Tx) :
    Except String (List Strat × List Tx) :=
  if !tesseractInstalled then
    Except.error "Tesseract OCR is not installed or not in your PATH."
  else if resUnstructured.isEmpty then
    if resPdfplumber.isEmpty then
      Except.ok ([Strat.unstructured, Strat.pdfplumber], [])
    else
      Except.ok ([Strat.unstructured, Strat.pdfplumber], resPdfplumber)
  else
    Except.ok ([Strat.unstructured], resUnstructured)

/-- The extraction strategies `upload_file` in `api_upload.py` invokes for a
`.pdf` upload: only `extract_transactions_with_openai(pdf_path=...)` — the
OCR/LLM path — is called; `extract_transactions_from_pdf` (strategies
`unstructured` and `pdfplumber`) is imported but never invoked there. -/
def upload_file_pdf_strategies : List Strat := [Strat.ocrLLM]

/-- A transaction object as returned by the LLM extractor, whose numeric
fields may be `null`. -/
structure LlmTx where
  Date : Option String
  Description : Option String
  Debit : Option Rat
  Credit : Option Rat
  Balance : Option Rat
deriving DecidableEq

/-- A parsed JSON value as far as the `transactions` validation looks at it:
either a list of transaction objects or something of another runtime type. -/
inductive PyVal
  | list (txs : List LlmTx)
  | other (typeName : String)
deriving DecidableEq

/-- Outcome of the LLM call plus JSON decoding inside the `try` block of
`extract_transactions_with_openai`: the API call can raise, `json.loads`
can raise on malformed content, or a JSON object (a key-value dict) comes
back. -/
inductive LlmOutcome
  | raises (msg : String)
  | badJson (msg : String)
  | ok (content : List (String × PyVal))
deriving DecidableEq

/-- The `try` block of `extract_transactions_with_openai`: any exception
from the API call or `json.loads` is caught by `except Exception` and gives
`[]`; a present `transactions` key that is not a list gives `[]`; a missing
key defaults to `[]`. -/
def llm_try_block : LlmOutcome → List LlmTx
  | LlmOutcome.raises _ => []
  | LlmOutcome.badJson _ => []
  | LlmOutcome.ok content =>
    match (content.lookup "transactions").getD (PyVal.list []) with
    | PyVal.list txs => txs
    | PyVal.other _ => []

/-- Python truthiness of the `text` variable: `None` and the empty string
are falsy. -/
def pyFalsyText : Option String → Bool
  | none => true
  | some t => t.isEmpty

/-- `extract_transactions_with_openai`: when `pdf_path` is given the
PaddleOCR call runs first, outside any `try` — `ocr` is its outcome, and an
exception there propagates out of the function (the error case).  Then a
falsy `text` returns `[]`, an unconfigured client (no `OPENAI_API_KEY`)
returns `[]`, and otherwise the guarded LLM call runs. -/
def extract_transactions_with_openai (ocr : Except String String) (llm : LlmOutcome)
    (clientOk : Bool) (text0 : Option String) (usePdfPath : Bool) :
    Except String (List LlmTx) :=
  match if usePdfPath then ocr.map some else Except.ok text0 with
  | Except.error e => Except.error e
  | Except.ok t =>
    if pyFalsyText t then Except.ok []
    else if !clientOk then Except.ok []
    else Except.ok (llm_try_block llm)

/-- `pdf2image.convert_from_path(path, first_page, last_page)`: the pages of
the document with 1-based inclusive page numbers; a page is abstracted to
the string of its image contents. -/
def convert_from_path (pages : List String) (firstPage lastPage : Nat) : List String :=
  (pages.drop (firstPage - 1)).take (lastPage + 1 - firstPage)

/-- `extract_text_from_pdf_with_paddleocr`: convert only the first page
(`first_page=1, last_page=1`), OCR each converted image, and join all
recognized word texts with newlines.  `ocrPage` abstracts the PaddleOCR
engine applied to one (downscaled) page image. -/
def extract_text_from_pdf_with_paddleocr (ocrPage : String → List String)
    (pages : List String) : String :=
  String.intercalate "\n" ((convert_from_path pages 1 1).flatMap ocrPage)

/-- The `.pdf` branch of `upload_file` (lines 41–46 of `api_upload.py`):
`data = extract_transactions_with_openai(pdf_path=tmp_path)` — whose text
the PaddleOCR collaborator produces from the saved file — then the same
PaddleOCR extraction again for the `ocr_text` debugging field of the
response. -/
def upload_file_pdf (ocrPage : String → List String) (llm : LlmOutcome)
    (clientOk : Bool) (pages : List String) :
    Except String (List LlmTx) × String :=
  (extract_transactions_with_openai
      (Except.ok (extract_text_from_pdf_with_paddleocr ocrPage pages))
      llm clientOk none true,
    extract_text_from_pdf_with_paddleocr ocrPage pages)

/-! ## Helper lemmas -/

/-- Dropping a prefix of characters that a filter discards anyway does not
change the filter's result. -/
theorem filter_dropWhile_discarded (p q : Char → Bool)
    (hpq : ∀ c, p c = true → q c = false) :
    ∀ l : List Char, (l.dropWhile p).filter q = l.filter q := by
  intro l
  induction l with
  | nil => rfl
  | cons c cs ih =>
    by_cases h : p c = true
    · simp only [List.dropWhile_cons, h, if_true, ih, List.filter_cons, hpq c h]
      simp
    · simp only [List.dropWhile_cons, h, if_false]
      simp [h]

/-- Whitespace characters are not kept by the amount cleaner. -/
theorem pyspace_not_kept (c : Char) (h : isPySpace c = true) :
    keepAmountChar c = false := by
  simp only [isPySpace, Bool.or_eq_true, decide_eq_true_eq] at h
  rcases h with ((((rfl | rfl) | rfl) | rfl) | rfl) | rfl <;> decide

/-- Python `str.strip()` is invisible to the amount cleaner's filter. -/
theorem filter_keep_stripChars (l : List Char) :
    (stripChars l).filter keepAmountChar = l.filter keepAmountChar := by
  unfold stripChars rstripChars lstripChars
  rw [List.filter_reverse,
    filter_dropWhile_discarded isPySpace keepAmountChar pyspace_not_kept,
    List.filter_reverse, List.reverse_reverse,
    filter_dropWhile_discarded isPySpace keepAmountChar pyspace_not_kept]

/-- The whole cleanup of `_normalize_amount` is exactly the removal of every
character other than digits, `.` and `-`. -/
theorem cleanAmount_eq_filter (l : List Char) :
    cleanAmount l = l.filter keepAmountChar := by
  unfold cleanAmount
  rw [filter_keep_stripChars, List.filter_filter]
  apply List.filter_congr
  intro c _
  by_cases h2 : c = ','
  · subst h2; decide
  · simp [h2]

/-- Membership in the rename-map loop's output: a pair `(h, f)` is produced
exactly when `f` was not claimed before the loop started and `h` is the
first remaining header whose fuzzy match is `f`. -/
theorem rename_map_go_mem (f : Field) (h : String) :
    ∀ (hs : List String) (used : List Field),
      ((h, f) ∈ _get_column_rename_map_go hs used ↔
        f ∉ used ∧ hs.find? (fun x => decide (_fuzzy_match_column x = some f)) = some h) := by
  intro hs
  induction hs with
  | nil => intro used; simp [_get_column_rename_map_go]
  | cons h0 hs ih =>
    intro used
    simp only [_get_column_rename_map_go]
    cases hm : _fuzzy_match_column h0 with
    | none =>
      have hneg : List.find? (fun x => decide (_fuzzy_match_column x = some f)) (h0 :: hs)
          = List.find? (fun x => decide (_fuzzy_match_column x = some f)) hs :=
        List.find?_cons_of_neg hs (by simp [hm])
      rw [ih used, hneg]
    | some k =>
      dsimp only
      by_cases hfk : f = k
      · subst hfk
        have hpos : List.find? (fun x => decide (_fuzzy_match_column x = some f)) (h0 :: hs)
            = some h0 :=
          List.find?_cons_of_pos hs (by simp [hm])
        rw [hpos]
        by_cases hk : f ∈ used
        · rw [if_pos hk, ih used]
          simp [hk]
        · rw [if_neg hk]
          simp only [List.mem_cons, Prod.mk.injEq, ih (f :: used), List.mem_cons,
            Option.some.injEq]
          constructor
          · rintro (⟨rfl, _⟩ | ⟨hnot, _⟩)
            · exact ⟨hk, rfl⟩
            · exact absurd (Or.inl trivial) hnot
          · rintro ⟨hnot, hh⟩
            exact Or.inl ⟨hh.symm, trivial⟩
      · have hneg : List.find? (fun x => decide (_fuzzy_match_column x = some f)) (h0 :: hs)
            = List.find? (fun x => decide (_fuzzy_match_column x = some f)) hs :=
          List.find?_cons_of_neg hs (by simp [hm]; exact fun e => hfk e.symm)
        rw [hneg]
        by_cases hk : k ∈ used
        · rw [if_pos hk, ih used]
        · rw [if_neg hk]
          simp only [List.mem_cons, Prod.mk.injEq, ih (k :: used), List.mem_cons]
          constructor
          · rintro (⟨_, hfk2⟩ | ⟨hnot, hfind⟩)
            · exact absurd hfk2 hfk
            · exact ⟨fun hin => hnot (Or.inr hin), hfind⟩
          · rintro ⟨hnot, hfind⟩
            refine Or.inr ⟨?_, hfind⟩
            rintro (hfk2 | hin)
            · exact hfk hfk2
            · exact hnot hin

/-- The row loop of `_process_dataframe_to_transactions` is exactly a
`filterMap` of the per-row conversion: rows are kept in source order and a
row contributes exactly when its conversion succeeds. -/
theorem process_rows_eq_filterMap (rows : List PRow) :
    process_rows rows = rows.filterMap row_to_tx := by
  induction rows with
  | nil => rfl
  | cons r rs ih =>
    simp only [process_rows, List.filterMap_cons]
    cases row_to_tx r <;> simp [ih]

/-- Success of the header-scan loop: the found index is offset by the start
index, the found row qualifies, its rename map is returned, and no earlier
row in the scanned list qualifies. -/
theorem find_header_row_go_some :
    ∀ (rows : List (List String)) (i j : Nat) (m : List (String × Field)),
      find_header_row_go i rows = some (j, m) →
        i ≤ j ∧ j - i < rows.length ∧
        (∃ row, rows.get? (j - i) = some row ∧ headerQualifies row = true ∧
          m = _get_column_rename_map row) ∧
        ∀ l row2, l < j - i → rows.get? l = some row2 → headerQualifies row2 = false := by
  intro rows
  induction rows with
  | nil => intro i j m h; simp [find_header_row_go] at h
  | cons r rs ih =>
    intro i j m h
    simp only [find_header_row_go] at h
    by_cases hq : headerQualifies r = true
    · rw [if_pos hq] at h
      obtain ⟨rfl, rfl⟩ : i = j ∧ _get_column_rename_map r = m := by
        cases h; exact ⟨rfl, rfl⟩
      refine ⟨Nat.le_refl i, ?_, ?_, ?_⟩
      · simp
      · exact ⟨r, by simp, hq, rfl⟩
      · intro l row2 hl
        omega
    · rw [if_neg hq] at h
      obtain ⟨hij, hlen, ⟨row, hget, hrq, hmval⟩, hearlier⟩ := ih (i + 1) j m h
      have hji : j - i = (j - (i + 1)) + 1 := by omega
      refine ⟨by omega, by simp; omega, ?_, ?_⟩
      · exact ⟨row, by rw [hji]; simpa using hget, hrq, hmval⟩
      · intro l row2 hl hget2
        match l with
        | 0 =>
          simp only [List.get?_cons_zero, Option.some.injEq] at hget2
          subst hget2
          exact Bool.eq_false_iff.mpr hq
        | Nat.succ l2 =>
          apply hearlier l2 row2 (by omega)
          simpa using hget2

/-- Failure of the header-scan loop: no row in the scanned list qualifies. -/
theorem find_header_row_go_none :
    ∀ (rows : List (List String)) (i : Nat),
      find_header_row_go i rows = none →
        ∀ row ∈ rows, headerQualifies row = false := by
  intro rows
  induction rows with
  | nil => intro i _ row hrow; simp at hrow
  | cons r rs ih =>
    intro i h row hrow
    simp only [find_header_row_go] at h
    by_cases hq : headerQualifies r = true
    · rw [if_pos hq] at h; cases h
    · rw [if_neg hq] at h
      rcases List.mem_cons.mp hrow with rfl | hin
      · exact Bool.eq_false_iff.mpr hq
      · exact ih (i + 1) h row hin

/-- Filtering to the kept amount characters is idempotent. -/
theorem filter_keep_idem (l : List Char) :
    (l.filter keepAmountChar).filter keepAmountChar = l.filter keepAmountChar := by
  induction l with
  | nil => rfl
  | cons c cs ih =>
    by_cases h : keepAmountChar c = true <;> simp [List.filter_cons, h, ih]

/-! ## Claim theorems -/

/-- C7: `_normalize_amount` strips thousands separators, currency symbols
and every other character that is not a digit, sign or decimal point —
removing exactly the discarded characters beforehand leaves the result
unchanged — returns 0.0 for an empty or unparseable cleaned string, and is
total (never raises); in particular normalizeAmount("1,234.56") = 1234.56,
normalizeAmount("") = 0.0 and normalizeAmount("N/A") = 0.0. -/
theorem normalize_amount_spec :
    _normalize_amount (some "1,234.56") = mkRat 123456 100
    ∧ _normalize_amount (some "") = 0
    ∧ _normalize_amount (some "N/A") = 0
    ∧ (∀ s : String,
        _normalize_amount (some (String.mk (s.toList.filter keepAmountChar)))
          = _normalize_amount (some s))
    ∧ (∀ s : String, parsePyFloat (s.toList.filter keepAmountChar) = none →
        _normalize_amount (some s) = 0) := by
  refine ⟨by decide, by decide, by decide, ?_, ?_⟩
  · intro s
    unfold _normalize_amount
    simp only [cleanAmount_eq_filter]
    have hmk : (String.mk (s.toList.filter keepAmountChar)).toList
        = s.toList.filter keepAmountChar := rfl
    rw [hmk, filter_keep_idem]
  · intro s hp
    unfold _normalize_amount
    simp only [cleanAmount_eq_filter]
    rw [hp]
    split <;> rfl

/-- C7 witness at the input "N/A": the cleaned string is unparseable and the
result is 0.0. -/
theorem normalize_amount_spec_witness :
    parsePyFloat ("N/A".toList.filter keepAmountChar) = none
    ∧ _normalize_amount (some "N/A") = 0 :=
  ⟨by decide, normalize_amount_spec.2.2.2.2 "N/A" (by decide)⟩

/-- C3: `_normalize_date` never raises to the caller — every pandas parse
failure is coerced to NaT, whose strftime ValueError is caught, yielding
None — a null input yields None, a yearless token such as "5 Apr" is not
given a guessed year but coerced to NaT (pandas fills the missing year from
its default `datetime(1, 1, 1)`, which overflows the nanosecond timestamp
range) and so yields None, and normalizeDate("2024-01-05") = "2024-01-05"
while normalizeDate("garbage") = None. -/
theorem normalize_date_spec :
    (∀ s : String, pd_to_datetime s = none → _normalize_date (some s) = none)
    ∧ _normalize_date none = none
    ∧ _normalize_date (some "2024-01-05") = some "2024-01-05"
    ∧ _normalize_date (some "garbage") = none
    ∧ _normalize_date (some "5 Apr") = none := by
  refine ⟨?_, rfl, by decide, by decide, by decide⟩
  intro s hs
  unfold _normalize_date
  dsimp only
  rw [hs]
  rfl

/-- C3 witness at the input "n/a": the pandas model coerces it to NaT and
the normalizer returns None. -/
theorem normalize_date_spec_witness :
    pd_to_datetime "n/a" = none ∧ _normalize_date (some "n/a") = none :=
  ⟨by decide, normalize_date_spec.1 "n/a" (by decide)⟩

/-- C8: `_get_column_rename_map` applies `_fuzzy_match_column` to the
headers left to right and, for each canonical field, keeps exactly the first
header matching it: a pair belongs to the map iff its header is the first
in the list whose fuzzy match is that field, so later duplicate matches are
ignored. -/
theorem build_header_map_first_occurrence (headers : List String) (h : String) (f : Field) :
    (h, f) ∈ _get_column_rename_map headers ↔
      headers.find? (fun x => decide (_fuzzy_match_column x = some f)) = some h := by
  rw [_get_column_rename_map, rename_map_go_mem]
  simp

/-- C8 witness: of two headers both matching debit, only the first is
mapped. -/
theorem build_header_map_first_occurrence_witness :
    ("Withdrawal", Field.debit) ∈ _get_column_rename_map ["Withdrawal", "Debit"]
    ∧ ("Debit", Field.debit) ∉ _get_column_rename_map ["Withdrawal", "Debit"] := by
  constructor
  · exact (build_header_map_first_occurrence ["Withdrawal", "Debit"] "Withdrawal"
      Field.debit).mpr (by decide)
  · intro hmem
    have h2 := (build_header_map_first_occurrence ["Withdrawal", "Debit"] "Debit"
      Field.debit).mp hmem
    exact absurd h2 (by decide)

/-- C2 counterexample: the header set Date/Description/Debit satisfies the
claimed acceptance condition — Date, Description and at least one of
Debit/Credit present after fuzzy matching — yet the code raises the
Missing required columns error, because it also demands credit and
balance. -/
theorem missing_columns_counterexample :
    spec_required_ok ["Date", "Description", "Debit"] = true
    ∧ extract_bank_statement_columns_check ["Date", "Description", "Debit"]
        = Except.error "Missing required columns: credit, balance" :=
  ⟨by decide, rfl⟩

/-- C2 amended: the spreadsheet path raises Missing required columns iff
any of the five canonical fields — date, description, debit, credit or
balance — is absent from the fuzzy-matched rename map; a table is accepted
exactly when all five are present. -/
theorem missing_columns_amended (headers : List String) :
    extract_bank_statement_columns_check headers = Except.ok ()
      ↔ ∀ f ∈ required_columns,
          ((_get_column_rename_map headers).map Prod.snd).contains f = true := by
  have hiff : missing_columns headers = []
      ↔ ∀ f ∈ required_columns,
          ((_get_column_rename_map headers).map Prod.snd).contains f = true := by
    unfold missing_columns
    rw [List.filter_eq_nil_iff]
    constructor
    · intro h1 f hf
      have h2 := h1 f hf
      simpa using h2
    · intro h1 f hf
      simp only [h1 f hf]
      decide
  rw [← hiff]
  unfold extract_bank_statement_columns_check
  cases hm : missing_columns headers with
  | nil => simp
  | cons a as => simp

/-- C2 amended witness: the spec's own example header set has all five
fields and is accepted. -/
theorem missing_columns_amended_witness :
    extract_bank_statement_columns_check
        ["Txn Date", "Narration", "Withdrawal", "Deposit", "Closing Balance"]
      = Except.ok () :=
  (missing_columns_amended _).mpr (by decide)

/-- C6: the converter emits a transaction for a data row iff that row's
normalized date is non-null — null-date rows are dropped silently, the loop
being exactly an order-preserving filterMap over the source rows — and each
numeric output field is 0.0 when its source cell is absent, when the cell
is unparseable, and when its whole column is absent from the table. -/
theorem converter_spec :
    (∀ cols rows, _process_dataframe_to_transactions cols rows
        = (rows.map (ensure_columns cols)).filterMap row_to_tx)
    ∧ (∀ r : PRow, (row_to_tx r).isSome = (_normalize_date r.date).isSome)
    ∧ _normalize_amount none = 0
    ∧ (∀ s : String, parsePyFloat (cleanAmount s.toList) = none →
        _normalize_amount (some s) = 0)
    ∧ (∀ cols r t, cols.hasDebit = false →
        row_to_tx (ensure_columns cols r) = some t → t.Debit = 0)
    ∧ (∀ cols r t, cols.hasCredit = false →
        row_to_tx (ensure_columns cols r) = some t → t.Credit = 0)
    ∧ (∀ cols r t, cols.hasBalance = false →
        row_to_tx (ensure_columns cols r) = some t → t.Balance = 0)
    ∧ (∀ r t, r.debit = none → row_to_tx r = some t → t.Debit = 0) := by
  refine ⟨?_, ?_, rfl, ?_, ?_, ?_, ?_, ?_⟩
  · intro cols rows
    unfold _process_dataframe_to_transactions
    exact process_rows_eq_filterMap _
  · intro r
    unfold row_to_tx
    cases h : _normalize_date r.date <;> simp [h]
  · intro s hp
    unfold _normalize_amount
    dsimp only
    rw [hp]
    split <;> rfl
  · intro cols r t hcol hrow
    unfold row_to_tx at hrow
    cases hd : _normalize_date (ensure_columns cols r).date with
    | none => rw [hd] at hrow; cases hrow
    | some dv =>
      rw [hd] at hrow
      injection hrow with ht
      rw [← ht]
      simp [ensure_columns, hcol]
      decide
  · intro cols r t hcol hrow
    unfold row_to_tx at hrow
    cases hd : _normalize_date (ensure_columns cols r).date with
    | none => rw [hd] at hrow; cases hrow
    | some dv =>
      rw [hd] at hrow
      injection hrow with ht
      rw [← ht]
      simp [ensure_columns, hcol]
      decide
  · intro cols r t hcol hrow
    unfold row_to_tx at hrow
    cases hd : _normalize_date (ensure_columns cols r).date with
    | none => rw [hd] at hrow; cases hrow
    | some dv =>
      rw [hd] at hrow
      injection hrow with ht
      rw [← ht]
      simp [ensure_columns, hcol]
      decide
  · intro r t hcell hrow
    unfold row_to_tx at hrow
    cases hd : _normalize_date r.date with
    | none => rw [hd] at hrow; cases hrow
    | some dv =>
      rw [hd] at hrow
      injection hrow with ht
      rw [← ht]
      simp [hcell]
      decide

/-- Concrete row used to witness the converter claim. -/
def witnessRow : PRow :=
  ⟨some "2024-01-05", some "x", none, some "7", some "9"⟩

/-- Concrete transaction used to witness the converter claim. -/
def witnessTx : Tx :=
  { Date := "2024-01-05", Description := "x", Debit := 0, Credit := 7, Balance := 9 }

/-- C6 witness: a row under a frame with no debit column converts to a
transaction whose debit is 0.0. -/
theorem converter_spec_witness :
    row_to_tx (ensure_columns ⟨true, false, true, true⟩ witnessRow) = some witnessTx
    ∧ witnessTx.Debit = 0 :=
  ⟨by decide,
    converter_spec.2.2.2.2.1 ⟨true, false, true, true⟩ witnessRow witnessTx rfl (by decide)⟩

/-- A table whose true header sits at row 2, below two banner rows, used to
witness the header locator claim. -/
def bannerTable : List (List String) :=
  [["ACME BANK", "", "", "", ""],
   ["Statement of Account", "", "", "", ""],
   ["Date", "Description", "Debit", "Credit", "Balance"],
   ["2024-03-01", "Coffee Shop", "4.50", "", "120.00"]]

/-- The rename map of `bannerTable`'s real header row. -/
def bannerTableMap : List (String × Field) :=
  [("Date", Field.date), ("Description", Field.description), ("Debit", Field.debit),
   ("Credit", Field.credit), ("Balance", Field.balance)]

/-- C5: the header locator scans at most the first 5 rows and returns the
earliest row whose rename map has date and at least one of debit/credit,
together with that map; when no scanned row qualifies the table contributes
zero transactions; and on a table with banner rows at indices 0 and 1 and
the true header at row 2, row 2 is selected. -/
theorem header_locator_spec :
    (∀ table i m, find_header_row table = some (i, m) →
        i < 5 ∧
        (∃ row, table.get? i = some row ∧ headerQualifies row = true ∧
          m = _get_column_rename_map row) ∧
        ∀ j row2, j < i → table.get? j = some row2 → headerQualifies row2 = false)
    ∧ (∀ table, find_header_row table = none →
        ∀ j row, j < 5 → table.get? j = some row → headerQualifies row = false)
    ∧ find_header_row bannerTable = some (2, bannerTableMap)
    ∧ (∀ table, find_header_row table = none → pdfplumber_table_transactions table = []) := by
  refine ⟨?_, ?_, by decide, ?_⟩
  · intro table i m h
    obtain ⟨-, hlen, ⟨row, hget, hq, hm⟩, hearlier⟩ :=
      find_header_row_go_some (table.take 5) 0 i m h
    rw [Nat.sub_zero] at hlen hget
    have hi5 : i < 5 := by
      have := List.length_take_le 5 table
      omega
    refine ⟨hi5, ⟨row, ?_, hq, hm⟩, ?_⟩
    · rw [← List.get?_take hi5]
      exact hget
    · intro j row2 hj hget2
      apply hearlier j row2 (by omega)
      rw [List.get?_take (by omega)]
      exact hget2
  · intro table hnone j row hj hget
    apply find_header_row_go_none (table.take 5) 0 hnone
    apply List.get?_mem (n := j)
    rw [List.get?_take hj]
    exact hget
  · intro table hnone
    unfold pdfplumber_table_transactions
    rw [hnone]
    split <;> rfl

/-- C5 witness: on the banner table the locator returns row 2, which
qualifies while rows 0 and 1 do not. -/
theorem header_locator_spec_witness :
    2 < 5 ∧
    (∃ row, bannerTable.get? 2 = some row ∧ headerQualifies row = true ∧
      bannerTableMap = _get_column_rename_map row) ∧
    ∀ j row2, j < 2 → bannerTable.get? j = some row2 → headerQualifies row2 = false :=
  header_locator_spec.1 bannerTable 2 bannerTableMap (by decide)

/-- C4 counterexample: when `pdf_path` is supplied and the PaddleOCR
collaborator raises, the exception propagates out of
`extract_transactions_with_openai` — it is not caught inside the path and
downgraded to an empty list, because the OCR call sits before the try
block. -/
theorem ocr_llm_boundary_counterexample :
    extract_transactions_with_openai (Except.error "PaddleOCR unavailable")
        (LlmOutcome.ok []) true none true
      = Except.error "PaddleOCR unavailable" := rfl

/-- C4 amended: an LLM-call exception, malformed LLM JSON, and a
`transactions` value that is not a list are each caught inside the OCR/LLM
path and produce an empty transaction list, but an OCR-engine exception in
the `pdf_path` branch is raised outside the try block and propagates past
the function's boundary. -/
theorem ocr_llm_boundary_amended :
    (∀ e llm clientOk text0,
        extract_transactions_with_openai (Except.error e) llm clientOk text0 true
          = Except.error e)
    ∧ (∀ (t : String) msg, t.isEmpty = false →
        extract_transactions_with_openai (Except.ok t) (LlmOutcome.raises msg) true none true
          = Except.ok [])
    ∧ (∀ (t : String) msg, t.isEmpty = false →
        extract_transactions_with_openai (Except.ok t) (LlmOutcome.badJson msg) true none true
          = Except.ok [])
    ∧ (∀ (t : String) content ty, t.isEmpty = false →
        content.lookup "transactions" = some (PyVal.other ty) →
        extract_transactions_with_openai (Except.ok t) (LlmOutcome.ok content) true none true
          = Except.ok []) := by
  refine ⟨?_, ?_, ?_, ?_⟩
  · intro e llm clientOk text0
    rfl
  · intro t msg ht
    simp [extract_transactions_with_openai, Except.map, pyFalsyText, ht, llm_try_block]
  · intro t msg ht
    simp [extract_transactions_with_openai, Except.map, pyFalsyText, ht, llm_try_block]
  · intro t content ty ht hlk
    simp [extract_transactions_with_openai, Except.map, pyFalsyText, ht, llm_try_block, hlk]

/-- C4 amended witness: a throwing LLM call on non-empty OCR text yields the
empty list. -/
theorem ocr_llm_boundary_amended_witness :
    extract_transactions_with_openai (Except.ok "5 Apr 125.00")
        (LlmOutcome.raises "APIError") true none true
      = Except.ok [] :=
  ocr_llm_boundary_amended.2.1 "5 Apr 125.00" "APIError" (by decide)

/-- C10: an unconfigured OpenAI client (no OPENAI_API_KEY) and an
absent/empty text — whether passed directly or extracted from the PDF —
each make `extract_transactions_with_openai` return the empty list rather
than raise. -/
theorem openai_guard_returns_empty :
    (∀ ocr llm clientOk,
        extract_transactions_with_openai ocr llm clientOk none false = Except.ok [])
    ∧ (∀ ocr llm clientOk,
        extract_transactions_with_openai ocr llm clientOk (some "") false = Except.ok [])
    ∧ (∀ llm clientOk,
        extract_transactions_with_openai (Except.ok "") llm clientOk none true = Except.ok [])
    ∧ (∀ ocr llm (t : String), t.isEmpty = false →
        extract_transactions_with_openai ocr llm false (some t) false = Except.ok [])
    ∧ (∀ llm (t : String), t.isEmpty = false →
        extract_transactions_with_openai (Except.ok t) llm false none true = Except.ok []) := by
  refine ⟨fun ocr llm c => rfl, fun ocr llm c => rfl, fun llm c => rfl, ?_, ?_⟩
  · intro ocr llm t ht
    simp [extract_transactions_with_openai, Except.map, pyFalsyText, ht]
  · intro llm t ht
    simp [extract_transactions_with_openai, Except.map, pyFalsyText, ht]

/-- C10 witness: with the client unconfigured and non-empty provided text,
the function returns the empty list. -/
theorem openai_guard_returns_empty_witness :
    extract_transactions_with_openai (Except.ok "") (LlmOutcome.ok []) false
        (some "balance 120.00") false
      = Except.ok [] :=
  openai_guard_returns_empty.2.2.2.1 (Except.ok "") (LlmOutcome.ok [])
    "balance 120.00" (by decide)

/-- C1 counterexample: the upload endpoint's PDF branch invokes only the
OCR/LLM strategy — neither structured strategy runs before it — and
`extract_transactions_from_pdf`, even when both structured strategies
return empty lists, terminates without ever invoking the OCR/LLM path. -/
theorem pdf_pipeline_order_counterexample :
    Strat.ocrLLM ∈ upload_file_pdf_strategies
    ∧ Strat.unstructured ∉ upload_file_pdf_strategies
    ∧ Strat.pdfplumber ∉ upload_file_pdf_strategies
    ∧ extract_transactions_from_pdf true [] []
        = Except.ok ([Strat.unstructured, Strat.pdfplumber], []) :=
  ⟨by decide, by decide, by decide, rfl⟩

/-- C1 amended: within `extract_transactions_from_pdf` the unstructured
strategy runs first and a non-empty result returns immediately without
invoking pdfplumber, pdfplumber runs only when unstructured was empty, and
the OCR/LLM path is never invoked by this function; the upload endpoint
routes every PDF directly to the OCR/LLM path, invoking neither structured
strategy. -/
theorem pdf_pipeline_order_amended :
    (∀ ra rb : List Tx, ra ≠ [] →
        extract_transactions_from_pdf true ra rb = Except.ok ([Strat.unstructured], ra))
    ∧ (∀ rb : List Tx, rb ≠ [] →
        extract_transactions_from_pdf true [] rb
          = Except.ok ([Strat.unstructured, Strat.pdfplumber], rb))
    ∧ extract_transactions_from_pdf true []
        [] = Except.ok ([Strat.unstructured, Strat.pdfplumber], [])
    ∧ (∀ (tOk : Bool) (ra rb : List Tx) res,
        extract_transactions_from_pdf tOk ra rb = Except.ok res → Strat.ocrLLM ∉ res.1)
    ∧ upload_file_pdf_strategies = [Strat.ocrLLM] := by
  refine ⟨?_, ?_, rfl, ?_, rfl⟩
  · intro ra rb hra
    have h1 : ra.isEmpty = false := by
      cases ra with
      | nil => exact absurd rfl hra
      | cons a as => rfl
    simp [extract_transactions_from_pdf, h1]
  · intro rb hrb
    have h1 : rb.isEmpty = false := by
      cases rb with
      | nil => exact absurd rfl hrb
      | cons a as => rfl
    simp [extract_transactions_from_pdf, h1]
  · intro tOk ra rb res h
    unfold extract_transactions_from_pdf at h
    split_ifs at h <;>
      first
        | exact Except.noConfusion h
        | (injection h with h2; rw [← h2]; simp)

/-- A sample transaction for the pipeline witness. -/
def sampleTx : Tx :=
  { Date := "2024-03-01", Description := "Coffee Shop", Debit := mkRat 45 10,
    Credit := 0, Balance := 120 }

/-- C1 amended witness: a non-empty unstructured result is returned
immediately, with only that strategy invoked. -/
theorem pdf_pipeline_order_amended_witness :
    extract_transactions_from_pdf true [sampleTx] []
      = Except.ok ([Strat.unstructured], [sampleTx]) :=
  pdf_pipeline_order_amended.1 [sampleTx] [] (by simp)

/-- C9: the PaddleOCR text collaborator converts and OCRs only the first
page (`first_page=1, last_page=1`), so the text fed to the LLM extractor
and the `ocr_text` inspection field of the upload response are both
unchanged when every page after the first is removed — they cover page 1
only. -/
theorem paddleocr_first_page_only (ocrPage : String → List String) (llm : LlmOutcome)
    (clientOk : Bool) (pages : List String) :
    extract_text_from_pdf_with_paddleocr ocrPage pages
        = extract_text_from_pdf_with_paddleocr ocrPage (pages.take 1)
    ∧ upload_file_pdf ocrPage llm clientOk pages
        = upload_file_pdf ocrPage llm clientOk (pages.take 1) := by
  have hconv : convert_from_path pages 1 1 = convert_from_path (pages.take 1) 1 1 := by
    unfold convert_from_path
    simp [List.take_take]
  constructor
  · unfold extract_text_from_pdf_with_paddleocr
    rw [hconv]
  · unfold upload_file_pdf extract_text_from_pdf_with_paddleocr
    rw [hconv]

end AccAuto
